import Mathlib

/-!
Shallow embedding of the core of the `qprobing` repository
(`dag_generator.py`, `data_generator.py`, `pgmpy_causality.py`) and
verification of the frozen claims about it.

Nodes are modelled as `String` (the repository relabels all graph nodes to
"x0", "x1", … before further processing).  Probabilities are modelled as `ℚ`.
External collaborators (networkx's Erdős–Rényi draw, numpy's PRNG, pgmpy's
exact inference and forward sampler) are modelled as explicit oracle
parameters, so that the control flow of the repository's own code is embedded
faithfully and is executable.
-/

namespace QProbing

/-! ## dag_generator.py -/

/-- `get_nodes_from_edges` (dag_generator.py, lines 101-110): starts from the
empty set and, for every edge `(source, dest)`, adds `source` and `dest`.
The Python set is modelled as a duplicate-free list built with
`List.insert`. -/
def get_nodes_from_edges (edges : List (String × String)) : List String :=
  edges.foldl (fun nodes e => (nodes.insert e.1).insert e.2) []

/-- One expansion step of graph reachability: the targets of all edges whose
source lies in `frontier`. -/
def stepReach (edges : List (String × String)) (frontier : List String) :
    List String :=
  edges.filterMap (fun e => if e.1 ∈ frontier then some e.2 else none)

/-- Fuelled saturation of reachability: repeatedly add the successors of the
current set until nothing new appears or the fuel runs out. -/
def reachIter (edges : List (String × String)) :
    Nat → List String → List String
  | 0, acc => acc
  | fuel + 1, acc =>
    let next := (stepReach edges acc).filter (fun x => !decide (x ∈ acc))
    if next.isEmpty then acc else reachIter edges fuel (acc ++ next)

/-- The set of nodes reachable from `src` in at least one step.  The fuel
`2 * edges.length + 1` exceeds the number of distinct nodes, so the iteration
always saturates. -/
def descendants (edges : List (String × String)) (src : String) : List String :=
  reachIter edges (2 * edges.length + 1) (stepReach edges [src])

/-- `nx.has_path(G, t, o)`: `o` is reachable from `t` (trivially so when
`t = o`). -/
def hasPath (edges : List (String × String)) (t o : String) : Bool :=
  decide (t = o) || decide (o ∈ descendants edges t)

/-- `nx.is_directed_acyclic_graph` on a graph given by `nodes` and `edges`:
no node of the graph reaches itself along a nonempty directed walk. -/
def isDirectedAcyclic (nodes : List String)
    (edges : List (String × String)) : Bool :=
  nodes.all (fun n => !decide (n ∈ descendants edges n))

/-- A networkx graph as drawn by `rg.erdos_renyi_graph`: integer-labelled
nodes and directed edges. -/
structure NxGraphN where
  nodes : List Nat
  edges : List (Nat × Nat)
  deriving Repr, DecidableEq

/-- The relabelling `node ↦ f"x{node}"` applied by
`DagGenerator._extract_graph_attributes`. -/
def relabelNode (n : Nat) : String := "x" ++ toString n

/-- A relabelled networkx graph (String-labelled). -/
structure NxGraphS where
  nodes : List String
  edges : List (String × String)
  deriving Repr, DecidableEq

/-- `nx.relabel.relabel_nodes(nx_graph, mapping)` with the canonical
`x`-prefix mapping. -/
def relabel (g : NxGraphN) : NxGraphS :=
  { nodes := g.nodes.map relabelNode
    edges := g.edges.map (fun e => (relabelNode e.1, relabelNode e.2)) }

/-- The structural errors raised by `DagGenerator._check_nx_graph`. -/
inductive DagError where
  | cyclicGraphError
  | isolatedNodeError
  deriving Repr, DecidableEq

/-- The graph attributes extracted on success: `self.edges` (a set, modelled
as a deduplicated list) and `self.nodes = get_nodes_from_edges(self.edges)`. -/
structure DagAttrs where
  edges : List (String × String)
  nodes : List String
  deriving Repr, DecidableEq

/-- `DagGenerator._postprocess_nx_graph` (dag_generator.py, lines 68-93):
relabel the drawn graph, extract the edge set and the non-isolated node set,
then check acyclicity (always, `force_dag=True`) and, when `force_n_vars` is
set, that the number of non-isolated nodes equals `n_vars`. -/
def postprocess_nx_graph (nVars : Nat) (g : NxGraphN) (forceNVars : Bool) :
    Except DagError DagAttrs :=
  let gS := relabel g
  let edges := gS.edges.dedup
  let nodes := get_nodes_from_edges edges
  if !isDirectedAcyclic gS.nodes edges then
    .error .cyclicGraphError
  else if forceNVars && !decide (nodes.length = nVars) then
    .error .isolatedNodeError
  else
    .ok ⟨edges, nodes⟩

/-- Outcome of one attempt of the wrapped function (`create_random_dag`)
inside `DagGenerator.exception_handler`: success, one of the two caught
structural errors, or any other exception. -/
inductive AttemptResult where
  | success
  | cyclicError
  | isolatedError
  | otherError
  deriving Repr, DecidableEq

/-- How the retry loop of `DagGenerator.exception_handler` ends. -/
inductive LoopOutcome where
  | ok
  | tooManyAttempts (n : Nat)
  | propagated
  deriving Repr, DecidableEq

/-- Observable result of a run of the retry loop: how it ended, the two error
counters `self.cyclic_graph_errors` / `self.isolated_node_errors`, the number
of attempts performed, and the seed (`self.seed`) in effect during each
attempt's draw. -/
structure RunResult where
  outcome : LoopOutcome
  cyclicErrors : Nat
  isolatedErrors : Nat
  attempts : Nat
  seedsUsed : List (Option Int)
  deriving Repr, DecidableEq

/-- `if self.seed: self.seed += 1` — the seed is incremented only when it is
Python-truthy (not `None` and not `0`). -/
def seedStep (seed : Option Int) : Option Int :=
  match seed with
  | none => none
  | some v => if v = 0 then some 0 else some (v + 1)

/-- The body of `DagGenerator.exception_handler.inner_function`
(dag_generator.py, lines 34-54): while not successful and `count <
max_count`, increment `count`, step the seed, run one attempt (`f` gives the
outcome of attempt number `count`), catch exactly `CyclicGraphError` and
`IsolatedNodeError` (incrementing the respective counter and retrying); any
other exception propagates; a successful attempt ends the loop.  The fuel is
`max_count - count`. -/
def loopAux (f : Nat → AttemptResult) :
    Nat → Nat → Option Int → Nat → Nat → List (Option Int) → RunResult
  | 0, count, _, cyc, iso, seeds =>
    { outcome := .tooManyAttempts count, cyclicErrors := cyc,
      isolatedErrors := iso, attempts := count, seedsUsed := seeds }
  | fuel + 1, count, seed, cyc, iso, seeds =>
    let seed2 := seedStep seed
    let seeds2 := seeds ++ [seed2]
    match f (count + 1) with
    | .success =>
      { outcome := .ok, cyclicErrors := cyc, isolatedErrors := iso,
        attempts := count + 1, seedsUsed := seeds2 }
    | .otherError =>
      { outcome := .propagated, cyclicErrors := cyc, isolatedErrors := iso,
        attempts := count + 1, seedsUsed := seeds2 }
    | .cyclicError => loopAux f fuel (count + 1) seed2 (cyc + 1) iso seeds2
    | .isolatedError => loopAux f fuel (count + 1) seed2 cyc (iso + 1) seeds2

/-- A full run of `exception_handler` with `max_count` attempts allowed,
starting from the supplied seed and zeroed error counters. -/
def exception_handler_run (f : Nat → AttemptResult) (maxCount : Nat)
    (seed0 : Option Int) : RunResult :=
  loopAux f maxCount 0 seed0 0 0 []

/-! ## data_generator.py -/

/-- The numpy pseudo-random generator as used by `DataGenerator._get_vals`
(`np.random.seed(seed)` followed by `np.random.uniform(0, 1, n)`).

With an integer seed, numpy's documented contract makes the drawn values a
pure function of the seed and the requested count (`seeded`).  With
`seed=None`, numpy re-seeds from fresh OS entropy, so the values of the
`k`-th such call depend on that call's entropy, modelled by the call index
(`entropic`).  Both always return exactly the requested number of values. -/
structure NumpyRng where
  seeded : Nat → Nat → List ℚ
  entropic : Nat → Nat → List ℚ
  seeded_length : ∀ s n, (seeded s n).length = n
  entropic_length : ∀ k n, (entropic k n).length = n

/-- `DataGenerator._get_parents` (data_generator.py, line 73-74):
`{source for source, dest in self.edges if dest == node}`. -/
def get_parents (edges : List (String × String)) (node : String) :
    List String :=
  ((edges.filter (fun e => decide (e.2 = node))).map (fun e => e.1)).dedup

/-- `DataGenerator._get_vals` (data_generator.py, lines 68-71): seed the
generator with `seed` and draw `2 ^ |parents|` uniform values.  `callIdx`
identifies the call for the `seed=None` entropy case. -/
def get_vals (rng : NumpyRng) (edges : List (String × String))
    (node : String) (seed : Option Nat) (callIdx : Nat) : List ℚ :=
  let n := 2 ^ (get_parents edges node).length
  match seed with
  | some s => rng.seeded s n
  | none => rng.entropic callIdx n

/-- The fields of a `pgmpy.TabularCPD` that `create_binary_cpd` fills in. -/
structure TabularCPD where
  var : String
  variableCard : Nat
  values : List (List ℚ)
  evidence : List String
  evidenceCard : List Nat
  deriving Repr, DecidableEq

/-- `create_binary_cpd` (data_generator.py, lines 95-105): a binary CPD whose
row for value 0 is `1 - val` and whose row for value 1 is `val`, for each of
the drawn values, with one binary evidence card per parent. -/
def create_binary_cpd (node : String) (vals : List ℚ)
    (parents : List String) : TabularCPD :=
  { var := node
    variableCard := 2
    values := [vals.map (fun v => 1 - v), vals]
    evidence := parents
    evidenceCard := parents.map (fun _ => 2) }

/-- `DataGenerator._create_random_binary_cpd` (data_generator.py, lines
63-66). -/
def create_random_binary_cpd (rng : NumpyRng)
    (edges : List (String × String)) (node : String) (seed : Option Nat)
    (callIdx : Nat) : TabularCPD :=
  create_binary_cpd node (get_vals rng edges node seed callIdx)
    (get_parents edges node)

/-- `DataGenerator._create_random_binary_cpds` (data_generator.py, lines
60-61): one CPD per node of the graph, every one drawn with the same `seed`
argument; the `k`-th drawing call gets call index `k`. -/
def create_random_binary_cpds (rng : NumpyRng)
    (edges : List (String × String)) (nodes : List String)
    (seed : Option Nat) : List TabularCPD :=
  nodes.enum.map (fun p => create_random_binary_cpd rng edges p.2 seed p.1)

/-- A parameterized `pgmpy.BayesianNetwork` as built by
`create_random_model`: the edge set plus the attached CPDs. -/
structure ParamModel where
  edges : List (String × String)
  cpds : List TabularCPD
  deriving Repr, DecidableEq

/-- The state of a `DataGenerator`: its edges and nodes, and `model` when
`create_random_model` has been called (`hasattr(self, 'model')`). -/
structure DataGeneratorState where
  edges : List (String × String)
  nodes : List String
  model : Option ParamModel

/-- `DataGenerator.__init__` (data_generator.py, lines 30-33). -/
def dataGeneratorInit (edges : List (String × String)) : DataGeneratorState :=
  { edges := edges, nodes := get_nodes_from_edges edges, model := none }

/-- `DataGenerator.create_random_model` (data_generator.py, lines 50-58):
build the network from the edges and attach one random binary CPD per
node. -/
def create_random_model (rng : NumpyRng) (st : DataGeneratorState)
    (seed : Option Nat) : DataGeneratorState :=
  { st with
    model := some
      { edges := st.edges
        cpds := create_random_binary_cpds rng st.edges st.nodes seed } }

/-- The error raised by `generate_data` on an unparameterized generator. -/
inductive DataError where
  | missingModelError
  deriving Repr, DecidableEq

/-- `DataGenerator.generate_data` (data_generator.py, lines 76-92): raise
`MissingModelError` when no model has been created; otherwise draw the
samples via pgmpy's forward sampler, modelled by the oracle `simulate`
mapping (model, n_samples) to a data table. -/
def generate_data (st : DataGeneratorState) (nSamples : Nat)
    (simulate : ParamModel → Nat → List (List Nat)) :
    Except DataError (List (List Nat)) :=
  match st.model with
  | none => .error .missingModelError
  | some m => .ok (simulate m nSamples)

/-! ## pgmpy_causality.py -/

/-- A `pgmpy.BayesianNetwork` as seen by the effect determiners: networkx
path queries and the direct-edge check only inspect its edge list. -/
structure BayesNet where
  edges : List (String × String)
  deriving Repr, DecidableEq

/-- Which strategy produced an interventional mean. -/
inductive Strategy where
  | exactInference
  | simulation
  deriving Repr, DecidableEq

/-- `SimulationFallbackError` (pgmpy_causality.py, lines 139-141). -/
inductive CausalityError where
  | simulationFallbackError
  deriving Repr, DecidableEq

/-- `EffectDeterminator._effect_is_trivial_one` (pgmpy_causality.py, lines
42-43). -/
def effect_is_trivial_one (t o : String) : Bool :=
  decide (t = o)

/-- `EffectDeterminator._effect_is_trivial_zero` (pgmpy_causality.py, lines
39-40): no directed path from treatment to outcome. -/
def effect_is_trivial_zero (m : BayesNet) (t o : String) : Bool :=
  !hasPath m.edges t o

/-- `EffectCalculator._has_direct_edge` (pgmpy_causality.py, lines 84-85). -/
def has_direct_edge (m : BayesNet) (t o : String) : Bool :=
  decide ((t, o) ∈ m.edges)

/-- `EffectCalculator._effect_is_problematic` (pgmpy_causality.py, lines
81-82): nontrivial effect without a direct treatment→outcome edge — the
configuration that triggers the pgmpy bug. -/
def effect_is_problematic (m : BayesNet) (t o : String) : Bool :=
  !effect_is_trivial_zero m t o && !effect_is_trivial_one t o &&
    !has_direct_edge m t o

/-- The external numeric collaborators of `EffectCalculator`:
`exactMean do_value` is the value pgmpy's `CausalInference.query` returns
(`query_result.values[1]`), and `simMean n do_value` is the mean the
`EffectSimulator` returns from `n` simulated samples. -/
structure EffectOracles where
  exactMean : Bool → ℚ
  simMean : Nat → Bool → ℚ

/-- `EffectCalculator._determine_interventional_mean` together with
`_use_simulation_fallback` and
`_determine_unproblematic_interventional_mean` (pgmpy_causality.py, lines
73-105): in the problematic configuration, fall back to simulation, raising
`SimulationFallbackError` when `n_samples` is Python-falsy (`None` or `0`);
otherwise use exact inference.  The strategy actually used is returned
alongside the value. -/
def calc_interventional_mean (m : BayesNet) (t o : String)
    (nSamples : Option Nat) (oracles : EffectOracles) (doValue : Bool) :
    Except CausalityError (Strategy × ℚ) :=
  if effect_is_problematic m t o then
    match nSamples with
    | none => .error .simulationFallbackError
    | some n =>
      if n = 0 then .error .simulationFallbackError
      else .ok (.simulation, oracles.simMean n doValue)
  else
    .ok (.exactInference, oracles.exactMean doValue)

/-- `EffectDeterminator.determine_effect` instantiated with the
`EffectCalculator` strategy (pgmpy_causality.py, lines 31-37 and 45-50):
return 1 when treatment equals outcome, 0 when no directed path exists, and
otherwise the difference of the two interventional means.  The returned list
records the strategy used for each mean (empty on the trivial
short-circuits, which perform no inference and no simulation). -/
def determine_effect_calc (m : BayesNet) (t o : String)
    (nSamples : Option Nat) (oracles : EffectOracles) :
    Except CausalityError (ℚ × List Strategy) :=
  if effect_is_trivial_one t o then .ok (1, [])
  else if effect_is_trivial_zero m t o then .ok (0, [])
  else
    match calc_interventional_mean m t o nSamples oracles false,
        calc_interventional_mean m t o nSamples oracles true with
    | .ok r0, .ok r1 => .ok (r1.2 - r0.2, [r0.1, r1.1])
    | .error e, _ => .error e
    | _, .error e => .error e

/-- A pandas DataFrame of simulated samples, as consumed by
`EffectSimulator._mean_from_simulated_samples`: a row count (`len(samples)`)
and the column for each variable name. -/
structure DataFrame where
  nRows : Nat
  col : String → List Nat

/-- The pandas `KeyError` raised by indexing `value_counts()` at a value that
never occurs in the column. -/
inductive PandasError where
  | keyError
  deriving Repr, DecidableEq

/-- `samples[var_name].value_counts()[v]`: the number of occurrences of `v`
in the column, except that `value_counts()` contains no entry for a value
with zero occurrences, so indexing it there raises `KeyError`. -/
def value_counts_at (column : List Nat) (v : Nat) : Except PandasError Nat :=
  if column.count v = 0 then .error .keyError else .ok (column.count v)

/-- `EffectSimulator._mean_from_simulated_samples` (pgmpy_causality.py,
lines 132-136): `ones = samples[var_name].value_counts()[1]`, then
`ones / len(samples)`. -/
def mean_from_simulated_samples (samples : DataFrame) (varName : String) :
    Except PandasError ℚ :=
  match value_counts_at (samples.col varName) 1 with
  | .error e => .error e
  | .ok ones => .ok ((ones : ℚ) / (samples.nRows : ℚ))

/-- `EffectSimulator._determine_interventional_mean` (pgmpy_causality.py,
lines 124-130): draw `n_samples` samples under `do(treatment = do_value)` —
modelled by the sampling oracle `simulate` — and take the sample mean of the
outcome column. -/
def sim_interventional_mean (simulate : Nat → String → Bool → DataFrame)
    (t o : String) (nSamples : Nat) (doValue : Bool) :
    Except PandasError ℚ :=
  mean_from_simulated_samples (simulate nSamples t doValue) o

/-- `EffectDeterminator.determine_effect` instantiated with the
`EffectSimulator` strategy (pgmpy_causality.py, lines 31-37 and 109-136). -/
def determine_effect_sim (m : BayesNet) (t o : String) (nSamples : Nat)
    (simulate : Nat → String → Bool → DataFrame) :
    Except PandasError ℚ :=
  if effect_is_trivial_one t o then .ok 1
  else if effect_is_trivial_zero m t o then .ok 0
  else
    match sim_interventional_mean simulate t o nSamples false,
        sim_interventional_mean simulate t o nSamples true with
    | .ok m0, .ok m1 => .ok (m1 - m0)
    | .error e, _ => .error e
    | _, .error e => .error e

/-! ## Helper lemmas about reachability -/

theorem subset_reachIter (edges : List (String × String)) :
    ∀ (fuel : Nat) (acc : List String), acc ⊆ reachIter edges fuel acc := by
  intro fuel
  induction fuel with
  | zero => intro acc; simp [reachIter]
  | succ n ih =>
    intro acc
    rw [reachIter]
    split
    · exact List.Subset.refl _
    · exact (List.subset_append_left _ _).trans (ih _)

theorem mem_stepReach_of (edges : List (String × String)) (t o : String)
    (frontier : List String) (he : (t, o) ∈ edges) (ht : t ∈ frontier) :
    o ∈ stepReach edges frontier := by
  simp only [stepReach, List.mem_filterMap]
  exact ⟨(t, o), he, by simp [ht]⟩

theorem hasPath_of_edge (edges : List (String × String)) (t o : String)
    (he : (t, o) ∈ edges) : hasPath edges t o = true := by
  have h1 : o ∈ stepReach edges [t] :=
    mem_stepReach_of edges t o [t] he (by simp)
  have h2 : o ∈ descendants edges t := subset_reachIter edges _ _ h1
  simp [hasPath, h2]

/-! ## Concrete example data used by the witnesses -/

/-- A chain network `x0 → x1 → x2`: there is a path from `x0` to `x2` but no
direct edge. -/
def chainNet : BayesNet := ⟨[("x0", "x1"), ("x1", "x2")]⟩

/-- A concrete instantiation of the numeric oracles of the calculator. -/
def exOracles : EffectOracles :=
  { exactMean := fun b => if b then 3 / 4 else 1 / 4
    simMean := fun n b => if b then 1 / (n + 1 : ℚ) else 0 }

/-- A concrete instantiation of the forward-sampling oracle. -/
def exSimulate : Nat → String → Bool → DataFrame :=
  fun n _ b => { nRows := n, col := fun _ => if b then [1, 0, 1] else [0, 0, 1] }

/-! ## C1 -/

/-- C1: whenever a directed path from treatment to outcome exists, the two
differ, and there is no direct edge, `EffectCalculator` is in the
problematic configuration: both interventional means are computed by the
simulation strategy (when a nonzero sample budget is configured), and with
no sample budget (`n_samples = None`, or the equally falsy `0`)
`determine_effect` raises `SimulationFallbackError`.  Conversely, with a
direct treatment→outcome edge (and a nontrivial query), both interventional
means come from exact inference, and no `SimulationFallbackError` can be
raised. -/
theorem effectCalculator_fallback_policy :
    (∀ (m : BayesNet) (t o : String) (oracles : EffectOracles),
      hasPath m.edges t o = true → t ≠ o → (t, o) ∉ m.edges →
      (∀ n : Nat, n ≠ 0 →
        determine_effect_calc m t o (some n) oracles =
          .ok (oracles.simMean n true - oracles.simMean n false,
            [Strategy.simulation, Strategy.simulation])) ∧
      determine_effect_calc m t o none oracles =
        .error .simulationFallbackError ∧
      determine_effect_calc m t o (some 0) oracles =
        .error .simulationFallbackError) ∧
    (∀ (m : BayesNet) (t o : String) (oracles : EffectOracles)
      (nSamples : Option Nat), (t, o) ∈ m.edges → t ≠ o →
      determine_effect_calc m t o nSamples oracles =
        .ok (oracles.exactMean true - oracles.exactMean false,
          [Strategy.exactInference, Strategy.exactInference])) := by
  constructor
  · intro m t o oracles hpath hne hnd
    have h1 : effect_is_trivial_one t o = false := by
      simp [effect_is_trivial_one, hne]
    have h0 : effect_is_trivial_zero m t o = false := by
      simp [effect_is_trivial_zero, hpath]
    have hd : has_direct_edge m t o = false := by
      simp [has_direct_edge, hnd]
    have hp : effect_is_problematic m t o = true := by
      simp [effect_is_problematic, h1, h0, hd]
    refine ⟨?_, ?_, ?_⟩
    · intro n hn
      simp [determine_effect_calc, h1, h0, calc_interventional_mean, hp, hn]
    · simp [determine_effect_calc, h1, h0, calc_interventional_mean, hp]
    · simp [determine_effect_calc, h1, h0, calc_interventional_mean, hp]
  · intro m t o oracles nSamples he hne
    have h1 : effect_is_trivial_one t o = false := by
      simp [effect_is_trivial_one, hne]
    have h0 : effect_is_trivial_zero m t o = false := by
      have := hasPath_of_edge m.edges t o he
      simp [effect_is_trivial_zero, this]
    have hd : has_direct_edge m t o = true := by
      simp [has_direct_edge, he]
    have hp : effect_is_problematic m t o = false := by
      simp [effect_is_problematic, hd]
    simp [determine_effect_calc, h1, h0, calc_interventional_mean, hp]

/-- Witness for C1 on the chain `x0 → x1 → x2` (fallback cases) and on the
direct edge `x0 → x1` (exact case). -/
theorem effectCalculator_fallback_policy_witness :
    determine_effect_calc chainNet "x0" "x2" (some 10) exOracles =
      .ok (exOracles.simMean 10 true - exOracles.simMean 10 false,
        [Strategy.simulation, Strategy.simulation]) ∧
    determine_effect_calc chainNet "x0" "x2" none exOracles =
      .error .simulationFallbackError ∧
    determine_effect_calc chainNet "x0" "x1" (some 10) exOracles =
      .ok (exOracles.exactMean true - exOracles.exactMean false,
        [Strategy.exactInference, Strategy.exactInference]) := by
  have h := effectCalculator_fallback_policy.1 chainNet "x0" "x2" exOracles
    (by decide) (by decide) (by decide)
  exact ⟨h.1 10 (by decide), h.2.1,
    effectCalculator_fallback_policy.2 chainNet "x0" "x1" exOracles (some 10)
      (by decide) (by decide)⟩

/-! ## C2 -/

/-- C2: for every model and node, `determine_effect(m, t, t)` returns exactly
1, for both the calculator and the simulator instantiation, performing no
inference and no simulation (the calculator's strategy trace is empty and
the result does not depend on the oracles): the `treatment == outcome`
short-circuit fires before the path check and before any
interventional-mean computation. -/
theorem determine_effect_self_is_one :
    ∀ (m : BayesNet) (t : String) (nSamples : Option Nat)
      (oracles : EffectOracles) (nSim : Nat)
      (simulate : Nat → String → Bool → DataFrame),
    determine_effect_calc m t t nSamples oracles = .ok (1, []) ∧
    determine_effect_sim m t t nSim simulate = .ok 1 := by
  intro m t nSamples oracles nSim simulate
  constructor
  · simp [determine_effect_calc, effect_is_trivial_one]
  · simp [determine_effect_sim, effect_is_trivial_one]

/-! ## C3 -/

/-- C3: for distinct treatment and outcome with no directed path between
them, `determine_effect` returns exactly 0 for both strategy
instantiations, performing no inference and no simulation (empty strategy
trace, no dependence on the oracles). -/
theorem determine_effect_no_path_is_zero (m : BayesNet) (t o : String)
    (hne : t ≠ o) (hnp : hasPath m.edges t o = false) :
    ∀ (nSamples : Option Nat) (oracles : EffectOracles) (nSim : Nat)
      (simulate : Nat → String → Bool → DataFrame),
    determine_effect_calc m t o nSamples oracles = .ok (0, []) ∧
    determine_effect_sim m t o nSim simulate = .ok 0 := by
  intro nSamples oracles nSim simulate
  have h1 : effect_is_trivial_one t o = false := by
    simp [effect_is_trivial_one, hne]
  have h0 : effect_is_trivial_zero m t o = true := by
    simp [effect_is_trivial_zero, hnp]
  constructor
  · simp [determine_effect_calc, h1, h0]
  · simp [determine_effect_sim, h1, h0]

/-- Witness for C3: in the chain `x0 → x1 → x2` there is no directed path
from `x1` back to `x0`. -/
theorem determine_effect_no_path_is_zero_witness :
    determine_effect_calc chainNet "x1" "x0" (some 5) exOracles =
      .ok (0, []) ∧
    determine_effect_sim chainNet "x1" "x0" 5 exSimulate = .ok 0 :=
  determine_effect_no_path_is_zero chainNet "x1" "x0" (by decide) (by decide)
    (some 5) exOracles 5 exSimulate

/-! ## C8 -/

/-- A frame of three samples in which the outcome never takes value 1. -/
def allZerosFrame : DataFrame := ⟨3, fun _ => [0, 0, 0]⟩

/-- A frame of four samples in which the outcome takes value 1 three times. -/
def someOnesFrame : DataFrame := ⟨4, fun _ => [1, 0, 1, 1]⟩

/-- C8 (code bug): when at least one sample has outcome 1, the simulation
strategy returns the sample proportion of `outcome = 1` (count of ones over
the number of rows).  But on a sample set with no `outcome = 1` row the code
raises a pandas `KeyError` (`value_counts()[1]` on a missing key) instead of
returning the proportion `0`. -/
theorem mean_from_samples_proportion_and_bug :
    (∀ (samples : DataFrame) (varName : String),
      0 < (samples.col varName).count 1 →
      mean_from_simulated_samples samples varName =
        .ok (((samples.col varName).count 1 : ℚ) / (samples.nRows : ℚ))) ∧
    mean_from_simulated_samples allZerosFrame "x1" = .error .keyError := by
  constructor
  · intro samples varName h
    have hne : (samples.col varName).count 1 ≠ 0 := by omega
    simp [mean_from_simulated_samples, value_counts_at, hne]
  · rfl

/-- Witness for C8's proportion case: 3 ones among 4 samples give 3/4. -/
theorem mean_from_samples_proportion_witness :
    mean_from_simulated_samples someOnesFrame "y" = .ok (3 / 4) := by
  have h := mean_from_samples_proportion_and_bug.1 someOnesFrame "y"
    (by decide)
  have hc : (someOnesFrame.col "y").count 1 = 3 := rfl
  have hr : someOnesFrame.nRows = 4 := rfl
  rw [h, hc, hr]
  norm_num

/-! ## C9 -/

/-- A concrete numpy-PRNG instantiation. -/
def exampleRng : NumpyRng :=
  { seeded := fun s n => (List.range n).map (fun i : Nat => (s : ℚ) / ((s : ℚ) + (i : ℚ) + 1))
    entropic := fun k n => (List.range n).map (fun i : Nat => ((k : ℚ) + (i : ℚ)) / ((k : ℚ) + (n : ℚ) + 1))
    seeded_length := fun _ n => by rw [List.length_map, List.length_range]
    entropic_length := fun _ n => by rw [List.length_map, List.length_range] }

/-- A concrete forward-sampling oracle for `generate_data`. -/
def exSampler : ParamModel → Nat → List (List Nat) :=
  fun _ n => List.replicate n [0, 1]

/-- C9: `generate_data` on a generator whose model has not been created
raises `MissingModelError` immediately — the result is the error for every
sampling oracle, so no samples are drawn and nothing is written — and after
`create_random_model` has been called, `generate_data` never raises
`MissingModelError`. -/
theorem generate_data_missing_model :
    (∀ (st : DataGeneratorState), st.model = none →
      ∀ (n : Nat) (simulate : ParamModel → Nat → List (List Nat)),
      generate_data st n simulate = .error .missingModelError) ∧
    (∀ (rng : NumpyRng) (st : DataGeneratorState) (seed : Option Nat)
      (n : Nat) (simulate : ParamModel → Nat → List (List Nat)),
      generate_data (create_random_model rng st seed) n simulate ≠
        .error .missingModelError) := by
  constructor
  · intro st h n simulate
    simp [generate_data, h]
  · intro rng st seed n simulate
    simp [generate_data, create_random_model]

/-- Witness for C9: a freshly initialized generator errors; after
`create_random_model` it does not. -/
theorem generate_data_missing_model_witness :
    generate_data (dataGeneratorInit [("x0", "x1")]) 5 exSampler =
      .error .missingModelError ∧
    generate_data
      (create_random_model exampleRng (dataGeneratorInit [("x0", "x1")])
        (some 1)) 5 exSampler ≠ .error .missingModelError :=
  ⟨generate_data_missing_model.1 (dataGeneratorInit [("x0", "x1")]) rfl 5
      exSampler,
    generate_data_missing_model.2 exampleRng (dataGeneratorInit [("x0", "x1")])
      (some 1) 5 exSampler⟩

/-! ## C10 -/

/-- C10: with a fixed non-None seed, any two nodes with the same number of
parents draw identical value lists (the PRNG is re-seeded with the same seed
before each node's draw, and the draw only depends on the seed and the
count), hence receive CPDs with identical value tables. -/
theorem same_parent_count_same_cpd_values (rng : NumpyRng)
    (edges : List (String × String)) (s : Nat) (a b : String) (ka kb : Nat)
    (h : (get_parents edges a).length = (get_parents edges b).length) :
    get_vals rng edges a (some s) ka = get_vals rng edges b (some s) kb ∧
    (create_random_binary_cpd rng edges a (some s) ka).values =
      (create_random_binary_cpd rng edges b (some s) kb).values := by
  have hv : get_vals rng edges a (some s) ka =
      get_vals rng edges b (some s) kb := by
    simp [get_vals, h]
  exact ⟨hv, by simp [create_random_binary_cpd, create_binary_cpd, hv]⟩

/-- Witness for C10: `x2` and `x3` both have exactly one parent in the graph
`x0 → x2, x1 → x3`, so their CPD value tables coincide. -/
theorem same_parent_count_same_cpd_values_witness :
    (create_random_binary_cpd exampleRng [("x0", "x2"), ("x1", "x3")] "x2"
        (some 7) 0).values =
      (create_random_binary_cpd exampleRng [("x0", "x2"), ("x1", "x3")] "x3"
        (some 7) 1).values :=
  (same_parent_count_same_cpd_values exampleRng [("x0", "x2"), ("x1", "x3")]
    7 "x2" "x3" 0 1 (by decide)).2

/-! ## C7 -/

/-- Each column of a binary CPD built from the drawn values sums to 1. -/
theorem zipWith_complement_add (l : List ℚ) :
    List.zipWith (fun a b => a + b) (l.map (fun v => 1 - v)) l =
      List.replicate l.length 1 := by
  induction l with
  | nil => rfl
  | cons x xs ih => simp [ih, List.replicate_succ]

/-- C7: `create_random_model`'s per-node CPD construction.  The CPD's
evidence is exactly the set of sources of edges into the node; the drawn
value list is `rng.seeded seed (2 ^ |parents|)` — the same seed for every
node and independent of which call it is — and has length `2 ^ |parents|`;
the CPD's value table has the drawn value as the probability of 1 and its
complement as the probability of 0 for each parent assignment, so every
column sums to 1; and `_create_random_binary_cpds` passes the one model
seed to every node's draw. -/
theorem create_random_binary_cpd_spec (rng : NumpyRng)
    (edges : List (String × String)) (node : String) (s : Nat)
    (callIdx : Nat) :
    (∀ p, p ∈ (create_random_binary_cpd rng edges node (some s)
        callIdx).evidence ↔ ∃ e ∈ edges, e.2 = node ∧ e.1 = p) ∧
    get_vals rng edges node (some s) callIdx =
      rng.seeded s (2 ^ (get_parents edges node).length) ∧
    (get_vals rng edges node (some s) callIdx).length =
      2 ^ (get_parents edges node).length ∧
    (create_random_binary_cpd rng edges node (some s) callIdx).values =
      [(rng.seeded s (2 ^ (get_parents edges node).length)).map
          (fun v => 1 - v),
        rng.seeded s (2 ^ (get_parents edges node).length)] ∧
    List.zipWith (fun a b => a + b)
        ((rng.seeded s (2 ^ (get_parents edges node).length)).map
          (fun v => 1 - v))
        (rng.seeded s (2 ^ (get_parents edges node).length)) =
      List.replicate (2 ^ (get_parents edges node).length) 1 ∧
    ∀ (nodes : List String),
      create_random_binary_cpds rng edges nodes (some s) =
        nodes.enum.map (fun p =>
          create_binary_cpd p.2
            (rng.seeded s (2 ^ (get_parents edges p.2).length))
            (get_parents edges p.2)) := by
  refine ⟨?_, ?_, ?_, ?_, ?_, ?_⟩
  · intro p
    simp only [create_random_binary_cpd, create_binary_cpd, get_parents,
      List.mem_dedup, List.mem_map, List.mem_filter, decide_eq_true_eq]
    constructor
    · rintro ⟨e, ⟨he, h2⟩, h1⟩
      exact ⟨e, he, h2, h1⟩
    · rintro ⟨e, he, h2, h1⟩
      exact ⟨e, ⟨he, h2⟩, h1⟩
  · rfl
  · exact rng.seeded_length s _
  · rfl
  · simpa [rng.seeded_length] using
      zipWith_complement_add (rng.seeded s (2 ^ (get_parents edges node).length))
  · intro nodes
    rfl

/-- Witness for C7 on the graph `x0 → x2, x1 → x3` at node `x2` (one
parent, so two drawn values). -/
theorem create_random_binary_cpd_spec_witness :
    ("x0" ∈ (create_random_binary_cpd exampleRng [("x0", "x2"), ("x1", "x3")]
        "x2" (some 7) 0).evidence ↔
      ∃ e ∈ [("x0", "x2"), ("x1", "x3")], e.2 = "x2" ∧ e.1 = "x0") ∧
    get_vals exampleRng [("x0", "x2"), ("x1", "x3")] "x2" (some 7) 0 =
      exampleRng.seeded 7 2 := by
  have h := create_random_binary_cpd_spec exampleRng
    [("x0", "x2"), ("x1", "x3")] "x2" 7 0
  have he : 2 ^ (get_parents [("x0", "x2"), ("x1", "x3")] "x2").length = 2 :=
    by decide
  refine ⟨h.1 "x0", ?_⟩
  have h2 := h.2.1
  rw [he] at h2
  exact h2

/-! ## Retry-loop lemmas (C4, C5) -/

/-- The 1-based indices of the attempts performed when `fuel` more attempts
are allowed after `count` already happened: `count+1, …, count+fuel`. -/
def attemptIndices (count fuel : Nat) : List Nat :=
  (List.range fuel).map (fun i => count + 1 + i)

theorem attemptIndices_succ (count n : Nat) :
    attemptIndices count (n + 1) =
      (count + 1) :: attemptIndices (count + 1) n := by
  unfold attemptIndices
  rw [List.range_succ_eq_map, List.map_cons, List.map_map]
  congr 1
  apply List.map_congr_left
  intro a _
  simp only [Function.comp_apply, Nat.succ_eq_add_one]
  omega

theorem loopAux_attempts_ge (f : Nat → AttemptResult) (fuel : Nat) :
    ∀ (count : Nat) (seed : Option Int) (cyc iso : Nat)
      (seeds : List (Option Int)),
    count ≤ (loopAux f fuel count seed cyc iso seeds).attempts := by
  induction fuel with
  | zero =>
    intro count seed cyc iso seeds
    simp [loopAux]
  | succ n ih =>
    intro count seed cyc iso seeds
    rw [loopAux]
    cases hc : f (count + 1) with
    | success => simp
    | otherError => simp
    | cyclicError =>
      exact le_trans (Nat.le_succ count) (ih (count + 1) _ _ _ _)
    | isolatedError =>
      exact le_trans (Nat.le_succ count) (ih (count + 1) _ _ _ _)

theorem loopAux_caught_spec (f : Nat → AttemptResult) (fuel : Nat) :
    ∀ (count : Nat) (seed : Option Int) (cyc iso : Nat)
      (seeds : List (Option Int)),
    (∀ k, count < k → k ≤ count + fuel →
      f k = .cyclicError ∨ f k = .isolatedError) →
    (loopAux f fuel count seed cyc iso seeds).outcome =
        .tooManyAttempts (count + fuel) ∧
      (loopAux f fuel count seed cyc iso seeds).attempts = count + fuel ∧
      (loopAux f fuel count seed cyc iso seeds).cyclicErrors =
        cyc + (attemptIndices count fuel).countP
          (fun k => decide (f k = .cyclicError)) ∧
      (loopAux f fuel count seed cyc iso seeds).isolatedErrors =
        iso + (attemptIndices count fuel).countP
          (fun k => decide (f k = .isolatedError)) := by
  induction fuel with
  | zero =>
    intro count seed cyc iso seeds _
    simp [loopAux, attemptIndices]
  | succ n ih =>
    intro count seed cyc iso seeds h
    have hnext := h (count + 1) (by omega) (by omega)
    have hrec : ∀ k, count + 1 < k → k ≤ count + 1 + n →
        f k = .cyclicError ∨ f k = .isolatedError := by
      intro k h1 h2
      exact h k (by omega) (by omega)
    rw [loopAux, attemptIndices_succ]
    rcases hnext with hc | hc
    · simp only [hc]
      have ih2 := ih (count + 1) (seedStep seed) (cyc + 1) iso
        (seeds ++ [seedStep seed]) hrec
      refine ⟨?_, ?_, ?_, ?_⟩
      · rw [ih2.1]
        congr 1
        omega
      · rw [ih2.2.1]
        omega
      · rw [ih2.2.2.1, List.countP_cons_of_pos _ _ (by simp [hc])]
        omega
      · rw [ih2.2.2.2, List.countP_cons_of_neg _ _ (by simp [hc])]
    · simp only [hc]
      have ih2 := ih (count + 1) (seedStep seed) cyc (iso + 1)
        (seeds ++ [seedStep seed]) hrec
      refine ⟨?_, ?_, ?_, ?_⟩
      · rw [ih2.1]
        congr 1
        omega
      · rw [ih2.2.1]
        omega
      · rw [ih2.2.2.1, List.countP_cons_of_neg _ _ (by simp [hc])]
      · rw [ih2.2.2.2, List.countP_cons_of_pos _ _ (by simp [hc])]
        omega

theorem loopAux_propagates (f : Nat → AttemptResult) (fuel : Nat) :
    ∀ (count : Nat) (seed : Option Int) (cyc iso : Nat)
      (seeds : List (Option Int)) (j : Nat),
    count < j → j ≤ count + fuel →
    (∀ k, count < k → k < j → f k = .cyclicError ∨ f k = .isolatedError) →
    f j = .otherError →
    (loopAux f fuel count seed cyc iso seeds).outcome = .propagated ∧
      (loopAux f fuel count seed cyc iso seeds).attempts = j := by
  induction fuel with
  | zero =>
    intro count seed cyc iso seeds j h1 h2 h3 h4
    omega
  | succ n ih =>
    intro count seed cyc iso seeds j h1 h2 h3 h4
    rw [loopAux]
    by_cases hj : j = count + 1
    · subst hj
      simp [h4]
    · have hfirst := h3 (count + 1) (by omega) (by omega)
      rcases hfirst with hc | hc
      · simp only [hc]
        exact ih (count + 1) _ _ _ _ j (by omega) (by omega)
          (fun k a b => h3 k (by omega) b) h4
      · simp only [hc]
        exact ih (count + 1) _ _ _ _ j (by omega) (by omega)
          (fun k a b => h3 k (by omega) b) h4

/-! ## C4 -/

/-- C4: the retry loop of `DagGenerator.exception_handler` catches exactly
`CyclicGraphError` and `IsolatedNodeError` — when every attempt up to
`max_attempts` raises one of the two, the loop performs exactly
`max_attempts` attempts, counts each kind separately in
`cyclic_graph_errors` / `isolated_node_errors`, and then raises
`TooManyAttemptsError` carrying the attempt count — while any other
exception, raised at some attempt `j` preceded only by the two caught
kinds, propagates immediately after exactly `j` attempts. -/
theorem dag_retry_loop_policy :
    (∀ (f : Nat → AttemptResult) (maxCount : Nat) (seed0 : Option Int),
      (∀ k, 1 ≤ k → k ≤ maxCount →
        f k = .cyclicError ∨ f k = .isolatedError) →
      (exception_handler_run f maxCount seed0).outcome =
          .tooManyAttempts maxCount ∧
        (exception_handler_run f maxCount seed0).attempts = maxCount ∧
        (exception_handler_run f maxCount seed0).cyclicErrors =
          (attemptIndices 0 maxCount).countP
            (fun k => decide (f k = .cyclicError)) ∧
        (exception_handler_run f maxCount seed0).isolatedErrors =
          (attemptIndices 0 maxCount).countP
            (fun k => decide (f k = .isolatedError))) ∧
    (∀ (f : Nat → AttemptResult) (maxCount : Nat) (seed0 : Option Int)
      (j : Nat), 1 ≤ j → j ≤ maxCount →
      (∀ k, 1 ≤ k → k < j → f k = .cyclicError ∨ f k = .isolatedError) →
      f j = .otherError →
      (exception_handler_run f maxCount seed0).outcome = .propagated ∧
        (exception_handler_run f maxCount seed0).attempts = j) := by
  constructor
  · intro f maxCount seed0 h
    have hspec := loopAux_caught_spec f maxCount 0 seed0 0 0 []
      (by intro k a b; exact h k a (by omega))
    simpa [exception_handler_run] using hspec
  · intro f maxCount seed0 j h1 h2 h3 h4
    exact loopAux_propagates f maxCount 0 seed0 0 0 [] j h1 (by omega)
      (fun k a b => h3 k a b) h4

/-- One cyclic rejection followed by isolated-node rejections. -/
def fMixed : Nat → AttemptResult :=
  fun k => if k = 1 then .cyclicError else .isolatedError

/-- One cyclic rejection, then an unexpected exception. -/
def fUnexpected : Nat → AttemptResult :=
  fun k => if k = 1 then .cyclicError else .otherError

/-- Witness for C4: three all-caught attempts exhaust the budget and are
counted by kind; an unexpected exception at attempt 2 propagates after
exactly 2 attempts. -/
theorem dag_retry_loop_policy_witness :
    (exception_handler_run fMixed 3 (some 1)).outcome =
        .tooManyAttempts 3 ∧
      (exception_handler_run fMixed 3 (some 1)).attempts = 3 ∧
      (exception_handler_run fMixed 3 (some 1)).cyclicErrors = 1 ∧
      (exception_handler_run fMixed 3 (some 1)).isolatedErrors = 2 ∧
      (exception_handler_run fUnexpected 5 none).outcome = .propagated ∧
      (exception_handler_run fUnexpected 5 none).attempts = 2 := by
  have h1 := dag_retry_loop_policy.1 fMixed 3 (some 1) (by
    intro k a b
    rcases eq_or_ne k 1 with h | h <;> simp [fMixed, h])
  have h2 := dag_retry_loop_policy.2 fUnexpected 5 none 2 (by omega)
    (by omega)
    (by
      intro k a b
      have : k = 1 := by omega
      simp [fUnexpected, this])
    (by decide)
  refine ⟨h1.1, h1.2.1, ?_, ?_, h2.1, h2.2⟩
  · rw [h1.2.2.1]
    decide
  · rw [h1.2.2.2]
    decide

/-! ## C5 -/

theorem loopAux_seeds_fix (f : Nat → AttemptResult) (fuel : Nat) :
    ∀ (count : Nat) (seed : Option Int), seedStep seed = seed →
    ∀ (cyc iso : Nat) (seeds : List (Option Int)),
    (loopAux f fuel count seed cyc iso seeds).seedsUsed =
      seeds ++ List.replicate
        ((loopAux f fuel count seed cyc iso seeds).attempts - count) seed := by
  induction fuel with
  | zero =>
    intro count seed hfix cyc iso seeds
    simp [loopAux]
  | succ n ih =>
    intro count seed hfix cyc iso seeds
    rw [loopAux, hfix]
    cases hc : f (count + 1) with
    | success => simp
    | otherError => simp
    | cyclicError =>
      simp only
      rw [ih (count + 1) seed hfix (cyc + 1) iso (seeds ++ [seed])]
      have hge := loopAux_attempts_ge f n (count + 1) seed (cyc + 1) iso
        (seeds ++ [seed])
      rw [List.append_assoc]
      congr 1
      have h2 : (loopAux f n (count + 1) seed (cyc + 1) iso
          (seeds ++ [seed])).attempts - count =
          ((loopAux f n (count + 1) seed (cyc + 1) iso
            (seeds ++ [seed])).attempts - (count + 1)) + 1 := by
        omega
      rw [h2, List.replicate_succ]
      rfl
    | isolatedError =>
      simp only
      rw [ih (count + 1) seed hfix cyc (iso + 1) (seeds ++ [seed])]
      have hge := loopAux_attempts_ge f n (count + 1) seed cyc (iso + 1)
        (seeds ++ [seed])
      rw [List.append_assoc]
      congr 1
      have h2 : (loopAux f n (count + 1) seed cyc (iso + 1)
          (seeds ++ [seed])).attempts - count =
          ((loopAux f n (count + 1) seed cyc (iso + 1)
            (seeds ++ [seed])).attempts - (count + 1)) + 1 := by
        omega
      rw [h2, List.replicate_succ]
      rfl

theorem loopAux_seeds_pos (f : Nat → AttemptResult) (fuel : Nat) :
    ∀ (count : Nat) (s : Int), 0 < s →
    ∀ (cyc iso : Nat) (seeds : List (Option Int)),
    (loopAux f fuel count (some s) cyc iso seeds).seedsUsed =
      seeds ++ (List.range
        ((loopAux f fuel count (some s) cyc iso seeds).attempts - count)).map
        (fun i : Nat => some (s + 1 + (i : Int))) := by
  induction fuel with
  | zero =>
    intro count s hs cyc iso seeds
    simp [loopAux]
  | succ n ih =>
    intro count s hs cyc iso seeds
    have hstep : seedStep (some s) = some (s + 1) := by
      have : s ≠ 0 := by omega
      simp [seedStep, this]
    rw [loopAux, hstep]
    cases hc : f (count + 1) with
    | success => simp [show List.range 1 = [0] from rfl]
    | otherError => simp [show List.range 1 = [0] from rfl]
    | cyclicError =>
      simp only
      rw [ih (count + 1) (s + 1) (by omega) (cyc + 1) iso
        (seeds ++ [some (s + 1)])]
      have hge := loopAux_attempts_ge f n (count + 1) (some (s + 1)) (cyc + 1)
        iso (seeds ++ [some (s + 1)])
      rw [List.append_assoc]
      congr 1
      have h2 : (loopAux f n (count + 1) (some (s + 1)) (cyc + 1) iso
          (seeds ++ [some (s + 1)])).attempts - count =
          ((loopAux f n (count + 1) (some (s + 1)) (cyc + 1) iso
            (seeds ++ [some (s + 1)])).attempts - (count + 1)) + 1 := by
        omega
      rw [h2, List.range_succ_eq_map, List.map_cons, List.map_map,
        List.singleton_append]
      congr 1
      · simp
      · apply List.map_congr_left
        intro a _
        simp only [Function.comp_apply, Nat.succ_eq_add_one]
        congr 1
        push_cast
        ring
    | isolatedError =>
      simp only
      rw [ih (count + 1) (s + 1) (by omega) cyc (iso + 1)
        (seeds ++ [some (s + 1)])]
      have hge := loopAux_attempts_ge f n (count + 1) (some (s + 1)) cyc
        (iso + 1) (seeds ++ [some (s + 1)])
      rw [List.append_assoc]
      congr 1
      have h2 : (loopAux f n (count + 1) (some (s + 1)) cyc (iso + 1)
          (seeds ++ [some (s + 1)])).attempts - count =
          ((loopAux f n (count + 1) (some (s + 1)) cyc (iso + 1)
            (seeds ++ [some (s + 1)])).attempts - (count + 1)) + 1 := by
        omega
      rw [h2, List.range_succ_eq_map, List.map_cons, List.map_map,
        List.singleton_append]
      congr 1
      · simp
      · apply List.map_congr_left
        intro a _
        simp only [Function.comp_apply, Nat.succ_eq_add_one]
        congr 1
        push_cast
        ring

/-- A wrapped function that always raises `CyclicGraphError`. -/
def alwaysCyclic : Nat → AttemptResult := fun _ => .cyclicError

/-- C5 counterexample: with supplied seed 5 the first attempt draws with
seed 6, not 5 (the increment happens before every attempt, not only on
retries), and with supplied seed 0 no attempt ever increments the seed
(Python truthiness), contradicting "attempt k uses seed + (k - 1) … for
every supplied seed value". -/
theorem dag_seed_increment_counterexample :
    (exception_handler_run alwaysCyclic 2 (some 5)).seedsUsed =
        [some 6, some 7] ∧
      (exception_handler_run alwaysCyclic 2 (some 5)).seedsUsed ≠
        [some 5, some 6] ∧
      (exception_handler_run alwaysCyclic 2 (some 0)).seedsUsed =
        [some 0, some 0] := by
  decide

/-- C5 (amended): during DAG generation the seed is incremented by exactly 1
before every attempt, including the first, so with a supplied positive seed
`s` attempt `k` (1-based) draws the Erdős–Rényi graph with seed `s + k`;
and a supplied seed that is Python-falsy or a fixed point of the step
(`None`, and the seed value `0`) is never incremented — every attempt draws
with the supplied seed unchanged. -/
theorem dag_seed_increment_policy :
    (∀ (s : Int), 0 < s → ∀ (f : Nat → AttemptResult) (maxCount k : Nat),
      k < (exception_handler_run f maxCount (some s)).seedsUsed.length →
      (exception_handler_run f maxCount (some s)).seedsUsed[k]? =
        some (some (s + 1 + (k : Int)))) ∧
    (∀ (seed : Option Int), seedStep seed = seed →
      ∀ (f : Nat → AttemptResult) (maxCount : Nat) (x : Option Int),
      x ∈ (exception_handler_run f maxCount seed).seedsUsed → x = seed) := by
  constructor
  · intro s hs f maxCount k hk
    have h := loopAux_seeds_pos f maxCount 0 s hs 0 0 []
    simp only [exception_handler_run] at hk ⊢
    rw [h] at hk ⊢
    simp only [List.nil_append, List.length_map, List.length_range] at hk ⊢
    rw [List.getElem?_map, List.getElem?_range hk]
    rfl
  · intro seed hfix f maxCount x hx
    have h := loopAux_seeds_fix f maxCount 0 seed hfix 0 0 []
    simp only [exception_handler_run] at hx
    rw [h, List.nil_append] at hx
    exact List.eq_of_mem_replicate hx

/-- Witness for C5 (amended): with seed 5 the first attempt draws with seed
6; with seed 0 every recorded seed is 0. -/
theorem dag_seed_increment_policy_witness :
    (exception_handler_run alwaysCyclic 2 (some 5)).seedsUsed[0]? =
        some (some 6) ∧
      (exception_handler_run alwaysCyclic 2 (some 0)).seedsUsed.headI =
        some 0 := by
  constructor
  · have h := dag_seed_increment_policy.1 5 (by omega) alwaysCyclic 2 0
      (by decide)
    norm_num at h
    exact h
  · exact dag_seed_increment_policy.2 (some 0) (by decide) alwaysCyclic 2 _
      (by decide)

/-! ## C6 -/

theorem mem_get_nodes_from_edges (edges : List (String × String))
    (x : String) :
    x ∈ get_nodes_from_edges edges ↔ ∃ e ∈ edges, x = e.1 ∨ x = e.2 := by
  suffices h : ∀ (acc : List String),
      x ∈ edges.foldl (fun nodes e => (nodes.insert e.1).insert e.2) acc ↔
        x ∈ acc ∨ ∃ e ∈ edges, x = e.1 ∨ x = e.2 by
    simpa [get_nodes_from_edges] using h []
  induction edges with
  | nil => intro acc; simp
  | cons e es ih =>
    intro acc
    simp only [List.foldl_cons]
    rw [ih ((acc.insert e.1).insert e.2)]
    simp only [List.mem_insert_iff, List.mem_cons]
    constructor
    · rintro ((h | h | h) | ⟨a, ha, h⟩)
      · exact Or.inr ⟨e, Or.inl rfl, Or.inr h⟩
      · exact Or.inr ⟨e, Or.inl rfl, Or.inl h⟩
      · exact Or.inl h
      · exact Or.inr ⟨a, Or.inr ha, h⟩
    · rintro (h | ⟨a, ha | ha, h⟩)
      · exact Or.inl (Or.inr (Or.inr h))
      · subst ha
        rcases h with h | h
        · exact Or.inl (Or.inr (Or.inl h))
        · exact Or.inl (Or.inl h)
      · exact Or.inr ⟨a, ha, h⟩

theorem all_of_subset (l1 l2 : List String) (p : String → Bool)
    (hsub : ∀ x ∈ l2, x ∈ l1) (h : l1.all p = true) : l2.all p = true := by
  rw [List.all_eq_true] at h ⊢
  intro x hx
  exact h x (hsub x hx)

/-- C6: every successful `create_random_dag` postprocessing yields attributes
satisfying the success postcondition: the returned graph is directed acyclic
(no returned node reaches itself); the returned node set is exactly the set
of endpoints of returned edges, so isolated nodes are excluded regardless of
the `force_n_vars` flag; and when `force_n_vars` is set the returned node
count equals the requested `n_vars`.  (`hwf` states that the drawn networkx
graph lists every edge endpoint among its nodes.) -/
theorem postprocess_success_postcondition (nVars : Nat) (g : NxGraphN)
    (forceNVars : Bool) (attrs : DagAttrs)
    (hwf : ∀ e ∈ g.edges, e.1 ∈ g.nodes ∧ e.2 ∈ g.nodes)
    (hok : postprocess_nx_graph nVars g forceNVars = .ok attrs) :
    isDirectedAcyclic attrs.nodes attrs.edges = true ∧
    (∀ x, x ∈ attrs.nodes ↔ ∃ e ∈ attrs.edges, x = e.1 ∨ x = e.2) ∧
    (forceNVars = true → attrs.nodes.length = nVars) := by
  simp only [postprocess_nx_graph] at hok
  split at hok
  · exact absurd hok (by simp)
  · split at hok
    · exact absurd hok (by simp)
    · rename_i hacyc hiso
      injection hok with hok
      subst hok
      have hacyc2 : isDirectedAcyclic (relabel g).nodes
          ((relabel g).edges.dedup) = true := by
        by_contra hx
        rw [Bool.not_eq_true] at hx
        exact hacyc (by simp [hx])
      refine ⟨?_, ?_, ?_⟩
      · apply all_of_subset (relabel g).nodes _ _ ?_ hacyc2
        intro x hx
        rw [mem_get_nodes_from_edges] at hx
        obtain ⟨e, he, hxe⟩ := hx
        rw [List.mem_dedup] at he
        simp only [relabel, List.mem_map] at he ⊢
        obtain ⟨a, ha, rfl⟩ := he
        rcases hxe with h | h
        · exact ⟨a.1, (hwf a ha).1, h.symm⟩
        · exact ⟨a.2, (hwf a ha).2, h.symm⟩
      · intro x
        exact mem_get_nodes_from_edges _ x
      · intro hf
        subst hf
        by_contra hne
        exact hiso (by simp [hne])

/-- The drawn graph `0 → 1 → 2` on three nodes. -/
def exG : NxGraphN := ⟨[0, 1, 2], [(0, 1), (1, 2)]⟩

/-- Witness for C6 on the chain graph: postprocessing succeeds with node set
`{x2, x1, x0}` of size 3, acyclic, and matching the edge endpoints. -/
theorem postprocess_success_postcondition_witness :
    isDirectedAcyclic ["x2", "x1", "x0"] [("x0", "x1"), ("x1", "x2")] =
        true ∧
      ("x1" ∈ (["x2", "x1", "x0"] : List String) ↔
        ∃ e ∈ [("x0", "x1"), ("x1", "x2")], "x1" = e.1 ∨ "x1" = e.2) ∧
      (["x2", "x1", "x0"] : List String).length = 3 := by
  have h := postprocess_success_postcondition 3 exG true
    ⟨[("x0", "x1"), ("x1", "x2")], ["x2", "x1", "x0"]⟩ (by decide) rfl
  exact ⟨h.1, h.2.1 "x1", h.2.2 rfl⟩

end QProbing
